import Mathlib

/-!
Verification of the zendriver browser-automation core against its
natural-language specification.

The development shallowly embeds the relevant parts of the source:

* `zendriver/core/keys.py` — the key-event compiler (`KeyEvents`,
  `SpecialKeys`, `KeyModifiers`, `KeyPressEvent` and the compilation
  pipeline `to_cdp_events` / `to_down_up_sequence` / `from_text` /
  `from_mixed_input`).
* `zendriver/core/expect.py` — `BaseRequestExpectation` /
  `RequestExpectation` / `DownloadExpectation`.
* `zendriver/core/intercept.py` — `BaseFetchInterception`.

Python string semantics used by the source (`str.isalpha`, `str.isdigit`,
`str.isascii`, `str.isupper`, `ord`, the substring operator `in`,
`str.index`, `int(...)`) are embedded over `Char.toNat`; the Unicode-aware
Python predicates are modelled on the ASCII range, which is faithful for
every input the embedded code paths inspect character-classes of (the
non-ASCII case is always routed through the `char`-event branch, which the
embedding keeps total in the string itself).

Fallible Python code (raised `ValueError` / `TypeError` / `KeyError` /
`NotImplementedError`) is embedded with `Except String`.
-/

namespace Zendriver

/-! ## Python string helpers -/

/-- `c.isascii()` for a single character (Python: code point below 128). -/
def charAscii (c : Char) : Bool := decide (c.toNat ≤ 127)

/-- Alphabetic character, modelled on the ASCII range. -/
def charAlpha (c : Char) : Bool :=
  decide ((65 ≤ c.toNat ∧ c.toNat ≤ 90) ∨ (97 ≤ c.toNat ∧ c.toNat ≤ 122))

/-- Decimal-digit character, modelled on the ASCII range. -/
def charDigit (c : Char) : Bool := decide (48 ≤ c.toNat ∧ c.toNat ≤ 57)

/-- Uppercase letter, modelled on the ASCII range. -/
def charUpper (c : Char) : Bool := decide (65 ≤ c.toNat ∧ c.toNat ≤ 90)

/-- Lowercase letter, modelled on the ASCII range. -/
def charLower (c : Char) : Bool := decide (97 ≤ c.toNat ∧ c.toNat ≤ 122)

/-- `str.upper()` on one character (ASCII range). -/
def charToUpper (c : Char) : Char :=
  if charLower c then Char.ofNat (c.toNat - 32) else c

/-- `str.lower()` on one character (ASCII range). -/
def charToLower (c : Char) : Char :=
  if charUpper c then Char.ofNat (c.toNat + 32) else c

/-- Python `s.isascii()`. -/
def pyIsAscii (s : String) : Bool := s.data.all charAscii

/-- Python `s.isalpha()`: non-empty and all alphabetic. -/
def pyIsAlpha (s : String) : Bool := !s.data.isEmpty && s.data.all charAlpha

/-- Python `s.isdigit()`: non-empty and all digits. -/
def pyIsDigit (s : String) : Bool := !s.data.isEmpty && s.data.all charDigit

/-- Python `s.isupper()`: some cased character, and no lowercase one
(modelled on the ASCII range). -/
def pyIsUpper (s : String) : Bool :=
  s.data.any charUpper && s.data.all (fun c => !charLower c)

/-- `s.upper()`. -/
def strUpper (s : String) : String := ⟨s.data.map charToUpper⟩

/-- `s.lower()`. -/
def strLower (s : String) : String := ⟨s.data.map charToLower⟩

/-- Python `ord(s)`: the code point of a one-character string, a
`TypeError` otherwise. -/
def pyOrd (s : String) : Except String Nat :=
  match s.data with
  | [c] => .ok c.toNat
  | _ => .error "TypeError: ord expected a character"

/-- Python `int(s)` restricted to unsigned decimal literals (the source
only applies it to strings that passed `str.isdigit`). -/
def pyInt (s : String) : Except String Nat :=
  if pyIsDigit s then .ok (s.data.foldl (fun n c => n * 10 + (c.toNat - 48)) 0)
  else .error "ValueError: invalid literal for int"

/-- Fuel-driven bitwise combination of two naturals (least significant
bit first); the fuel is always given as an upper bound on the bit
length, so the result is the usual bitwise operation. The detour keeps
the definition reducible by the kernel. -/
def bitwiseAux (f : Bool → Bool → Bool) : Nat → Nat → Nat → Nat
  | 0, _, _ => 0
  | fuel + 1, n, m =>
    (if f (decide (n % 2 = 1)) (decide (m % 2 = 1)) then 1 else 0)
      + 2 * bitwiseAux f fuel (n / 2) (m / 2)

/-- Python `n | m` on non-negative ints. -/
def bitOr (n m : Nat) : Nat := bitwiseAux (fun a b => a || b) (n + m + 1) n m

/-- Python `n & m` on non-negative ints. -/
def bitAnd (n m : Nat) : Nat := bitwiseAux (fun a b => a && b) (n + m + 1) n m

/-- Python `n & ~m` on non-negative ints. -/
def bitDiff (n m : Nat) : Nat := bitwiseAux (fun a b => a && !b) (n + m + 1) n m

/-- First index at which `needle` occurs as a contiguous run inside `hay`
(`none` when it does not occur). Empty needles match at index 0, as in
Python. -/
def pySubstrFind (needle : List Char) : List Char → Option Nat
  | [] => if needle.isPrefixOf [] then some 0 else none
  | c :: t =>
    if needle.isPrefixOf (c :: t) then some 0
    else (pySubstrFind needle t).map (· + 1)

/-- Python substring containment `needle in hay`. -/
def pyInStr (needle hay : String) : Bool := (pySubstrFind needle.data hay.data).isSome

/-- Python `hay.index(needle)` (callers in the source only use it after a
containment check, so the default 0 is never observed). -/
def pyStrIndex (needle hay : String) : Nat := (pySubstrFind needle.data hay.data).getD 0

/-! ## Key-event compiler data model (`zendriver/core/keys.py`) -/

/- The `KeyModifiers` IntEnum. -/
namespace KeyModifiers

def Default : Nat := 0

def Alt : Nat := 1

def Ctrl : Nat := 2

def Meta : Nat := 4

def Shift : Nat := 8

end KeyModifiers

/-- The `SpecialKeys` enum. -/
inductive SpecialKeys
  | SPACE
  | ENTER
  | TAB
  | BACKSPACE
  | ESCAPE
  | DELETE
  | ARROW_LEFT
  | ARROW_UP
  | ARROW_RIGHT
  | ARROW_DOWN
  | SHIFT
  | ALT
  | CTRL
  | META
deriving DecidableEq

/-- The `(name, key code)` value of each `SpecialKeys` member. -/
def SpecialKeys.value : SpecialKeys → String × Nat
  | .SPACE => (" ", 32)
  | .ENTER => ("Enter", 13)
  | .TAB => ("Tab", 9)
  | .BACKSPACE => ("Backspace", 8)
  | .ESCAPE => ("Escape", 27)
  | .DELETE => ("Delete", 46)
  | .ARROW_LEFT => ("ArrowLeft", 37)
  | .ARROW_UP => ("ArrowUp", 38)
  | .ARROW_RIGHT => ("ArrowRight", 39)
  | .ARROW_DOWN => ("ArrowDown", 40)
  | .SHIFT => ("Shift", 16)
  | .ALT => ("Alt", 18)
  | .CTRL => ("Control", 17)
  | .META => ("Meta", 91)

/-- The `KeyPressEvent` enum. -/
inductive KeyPressEvent
  | KEY_DOWN
  | KEY_UP
  | RAW_KEY_DOWN
  | CHAR
  | DOWN_AND_UP
deriving DecidableEq

/-- The string value of each `KeyPressEvent` member. -/
def KeyPressEvent.value : KeyPressEvent → String
  | .KEY_DOWN => "keyDown"
  | .KEY_UP => "keyUp"
  | .RAW_KEY_DOWN => "rawKeyDown"
  | .CHAR => "char"
  | .DOWN_AND_UP => "downAndUp"

/-- `KeyEvents.NUM_SHIFT`. -/
def NUM_SHIFT : String := ")!@#$%^&*("

/-- `KeyEvents.SPECIAL_CHAR_MAP` (dict lookup by key equality). -/
def SPECIAL_CHAR_MAP (s : String) : Option (String × Nat) :=
  if s = ";" then some ("Semicolon", 186)
  else if s = "=" then some ("Equal", 187)
  else if s = "," then some ("Comma", 188)
  else if s = "-" then some ("Minus", 189)
  else if s = "." then some ("Period", 190)
  else if s = "/" then some ("Slash", 191)
  else if s = "`" then some ("Backquote", 192)
  else if s = "[" then some ("BracketLeft", 219)
  else if s = "\\" then some ("Backslash", 220)
  else if s = "]" then some ("BracketRight", 221)
  else if s = "'" then some ("Quote", 222)
  else none

/-- `KeyEvents.SPECIAL_CHAR_SHIFT_MAP`. -/
def SPECIAL_CHAR_SHIFT_MAP (s : String) : Option String :=
  if s = ":" then some ";"
  else if s = "+" then some "="
  else if s = "<" then some ","
  else if s = "_" then some "-"
  else if s = ">" then some "."
  else if s = "?" then some "/"
  else if s = "~" then some "`"
  else if s = "\x7b" then some "["
  else if s = "|" then some "\\"
  else if s = "\x7d" then some "]"
  else if s = "\"" then some "'"
  else none

/-- `KeyEvents.SPECIAL_CHAR_REVERSE_MAP` (the swapped shift map). -/
def SPECIAL_CHAR_REVERSE_MAP (s : String) : Option String :=
  if s = ";" then some ":"
  else if s = "=" then some "+"
  else if s = "," then some "<"
  else if s = "-" then some "_"
  else if s = "." then some ">"
  else if s = "/" then some "?"
  else if s = "`" then some "~"
  else if s = "[" then some "\x7b"
  else if s = "\\" then some "|"
  else if s = "]" then some "\x7d"
  else if s = "'" then some "\""
  else none

/-- `KeyEvents.MODIFIER_KEYS`. -/
def MODIFIER_KEYS : List SpecialKeys := [.SHIFT, .ALT, .CTRL, .META]

/-- `KeyEvents.SPECIAL_KEY_CHAR_MAP`. -/
def SPECIAL_KEY_CHAR_MAP (k : SpecialKeys) : Option String :=
  match k with
  | .SPACE => some " "
  | .ENTER => some "\r"
  | .TAB => some "\t"
  | _ => none

/-- A key is either a Python string or a `SpecialKeys` member. -/
inductive Key
  | str (s : String)
  | special (k : SpecialKeys)
deriving DecidableEq

/-- `KeyEvents.Payload` (the TypedDict sent to CDP). -/
structure Payload where
  type_ : String
  modifiers : Nat
  text : Option String
  key : Option String
  code : Option String
  windows_virtual_key_code : Option Nat
  native_virtual_key_code : Option Nat
deriving DecidableEq

/-- `KeyEvents.is_english_alphabet`: `True` for a single ASCII letter,
`ValueError` for longer all-ASCII-alphabetic strings. -/
def isEnglishAlphabet (ch : String) : Except String Bool :=
  if pyIsAlpha ch && pyIsAscii ch then
    if ch.length ≠ 1 then
      .error "Key must be a single ASCII character."
    else .ok true
  else .ok false

/-- `KeyEvents._handle_string_key_lookup`. -/
def handleStringKeyLookup (key : String) : Except String (Option String × Option Nat) := do
  let isLetter ← isEnglishAlphabet key
  if isLetter then
    let n ← pyOrd (strUpper key)
    pure (some ("Key" ++ strUpper key), some n)
  else if pyIsDigit key || pyInStr key NUM_SHIFT then
    let digit := if pyInStr key NUM_SHIFT then toString (pyStrIndex key NUM_SHIFT) else key
    let n ← pyOrd digit
    pure (some ("Digit" ++ digit), some n)
  else if pyInStr key "\n\r" then
    pure (some (SpecialKeys.ENTER.value).1, some (SpecialKeys.ENTER.value).2)
  else if key = "\t" then
    pure (some (SpecialKeys.TAB.value).1, some (SpecialKeys.TAB.value).2)
  else if key = " " then
    pure (some (SpecialKeys.SPACE.value).1, some (SpecialKeys.SPACE.value).2)
  else match SPECIAL_CHAR_MAP key with
    | some cn => pure (some cn.1, some cn.2)
    | none => match SPECIAL_CHAR_SHIFT_MAP key with
      | some base => match SPECIAL_CHAR_MAP base with
        | some cn => pure (some cn.1, some cn.2)
        | none => .error "KeyError"
      | none => pure (none, none)

/-- `KeyEvents._handle_special_key_lookup`. -/
def handleSpecialKeyLookup (key : SpecialKeys) : String × Nat :=
  if key ∈ MODIFIER_KEYS then (key.value.1 ++ "Left", key.value.2) else key.value

/-- The `KeyEvents` instance state after `__init__`. -/
structure KeyEvents where
  key : Key
  modifiers : Nat
  code : Option String
  keyCode : Option Nat
deriving DecidableEq

/-- `KeyEvents.__init__`. -/
def KeyEvents.make (key : Key) (modifiers : Nat) : Except String KeyEvents := do
  let cn ← match key with
    | .str s => handleStringKeyLookup s
    | .special k =>
        pure (some (handleSpecialKeyLookup k).1, some (handleSpecialKeyLookup k).2)
  pure { key := key, modifiers := modifiers, code := cn.1, keyCode := cn.2 }

/-- `KeyEvents.conv_to_str`. -/
def convToStr (k : SpecialKeys) : Except String String :=
  if k = .SPACE then .ok " "
  else if k = .ENTER then .ok "\n"
  else if k = .TAB then .ok "\t"
  else .error "Cannot convert to string, only SPACE, ENTER and TAB are supported."

/-- The tail of `KeyEvents._normalise_key` after the classification chain:
the unsupported-modifier check and the final Shift rewrite. -/
def finishNormalise (s : String) (modifiers : Nat) (lowercaseKey : Option String) :
    Except String (Key × Nat) :=
  if modifiers ≠ bitOr KeyModifiers.Default KeyModifiers.Shift ∧ lowercaseKey.isSome = true then
    .error "Key is not supported with these modifiers."
  else match lowercaseKey with
    | none => .ok (.str s, modifiers)
    | some lk => .ok (.str lk, bitOr modifiers KeyModifiers.Shift)

/-- `KeyEvents._normalise_key`. -/
def normaliseKey (key : Key) (modifiers : Nat) : Except String (Key × Nat) :=
  match key with
  | .special _ => .ok (key, modifiers)
  | .str s =>
    if pyInStr s NUM_SHIFT then
      finishNormalise s (bitOr modifiers KeyModifiers.Shift)
        (some (toString (pyStrIndex s NUM_SHIFT)))
    else if (SPECIAL_CHAR_SHIFT_MAP s).isSome then
      finishNormalise s (bitOr modifiers KeyModifiers.Shift) (SPECIAL_CHAR_SHIFT_MAP s)
    else do
      let isLetter ← isEnglishAlphabet s
      if isLetter && pyIsUpper s then
        finishNormalise s (bitOr modifiers KeyModifiers.Shift) (some (strLower s))
      else if pyInStr s "\n\r" then .ok (.special .ENTER, modifiers)
      else if s = "\t" then .ok (.special .TAB, modifiers)
      else if s = " " then .ok (.special .SPACE, modifiers)
      else finishNormalise s modifiers none

/-- `KeyEvents._handle_printable_char`. -/
def handlePrintableChar (key : String) (modifiers : Nat) : Except String (String × String) := do
  if modifiers ≠ KeyModifiers.Shift then pure (key, key)
  else do
    let isLetter ← isEnglishAlphabet key
    if isLetter then pure (strUpper key, strUpper key)
    else if pyIsDigit key then do
      let i ← pyInt key
      match NUM_SHIFT.data.get? i with
      | some c => pure (String.singleton c, String.singleton c)
      | none => .error "IndexError: string index out of range"
    else match SPECIAL_CHAR_REVERSE_MAP key with
      | some sk => pure (sk, sk)
      | none => .error "KeyError"

/-- `KeyEvents._build_action_data`, returning the `(key, text)` pair. -/
def buildActionData (ke : KeyEvents) (modifiers : Nat) :
    Except String (String × Option String) :=
  match ke.key with
  | .str s => do
    let kt ← handlePrintableChar s modifiers
    pure (kt.1, some kt.2)
  | .special sk =>
    match SPECIAL_KEY_CHAR_MAP sk with
    | some c => pure (c, some c)
    | none => pure (sk.value.1, none)

/-- `KeyEvents._get_key_and_text`. -/
def getKeyAndText (ke : KeyEvents) (kpe : KeyPressEvent) (modifiers : Nat) :
    Except String (String × Option String) :=
  if kpe = .CHAR then
    match ke.key with
    | .special sk => do
      let s ← convToStr sk
      pure (s, some s)
    | .str s => pure (s, some s)
  else buildActionData ke modifiers

/-- `KeyEvents._to_basic_event`. -/
def toBasicEvent (ke : KeyEvents) (kpe : KeyPressEvent) (modifiers : Nat) :
    Except String Payload := do
  let kt ← getKeyAndText ke kpe modifiers
  if kpe = .CHAR then
    match kt.2 with
    | none => .error "Key is not supported for CHAR event type."
    | some t =>
      pure { type_ := KeyPressEvent.CHAR.value, modifiers := modifiers, text := some t,
             key := none, code := none,
             windows_virtual_key_code := none, native_virtual_key_code := none }
  else
    pure { type_ := kpe.value, modifiers := modifiers, text := kt.2, key := some kt.1,
           code := ke.code, windows_virtual_key_code := ke.keyCode,
           native_virtual_key_code := ke.keyCode }

/-- `KeyEvents._decompose_modifiers`. -/
def decomposeModifiers (modifiers : Nat) : Except String (List (SpecialKeys × Nat)) :=
  if modifiers = KeyModifiers.Default then .ok []
  else
    let l :=
      (if bitAnd modifiers KeyModifiers.Alt ≠ 0 then [(SpecialKeys.ALT, KeyModifiers.Alt)] else [])
      ++ (if bitAnd modifiers KeyModifiers.Ctrl ≠ 0 then [(SpecialKeys.CTRL, KeyModifiers.Ctrl)] else [])
      ++ (if bitAnd modifiers KeyModifiers.Meta ≠ 0 then [(SpecialKeys.META, KeyModifiers.Meta)] else [])
      ++ (if bitAnd modifiers KeyModifiers.Shift ≠ 0 then [(SpecialKeys.SHIFT, KeyModifiers.Shift)] else [])
    if l.isEmpty then .error "No valid modifier keys found." else .ok l

/-- `KeyEvents.to_down_up_sequence`. -/
def toDownUpSequence (ke : KeyEvents) (modifiers : Nat) : Except String (List Payload) := do
  let decomp ← decomposeModifiers modifiers
  let modEvents ← decomp.mapM (fun p => do
    let mke ← KeyEvents.make (.special p.1) KeyModifiers.Default
    pure (mke, p.2))
  let isModifierKey := modEvents.any (fun p => p.1.key == ke.key)
  let downAcc ← modEvents.foldlM (fun acc p => do
    let cur := bitOr acc.1 p.2
    let pay ← toBasicEvent p.1 .KEY_DOWN cur
    pure (cur, acc.2 ++ [pay])) ((0 : Nat), ([] : List Payload))
  let stage2 ←
    if isModifierKey then pure downAcc.2
    else do
      let pay ← toBasicEvent ke .KEY_DOWN downAcc.1
      pure (downAcc.2 ++ [pay])
  let upAcc ← modEvents.foldlM (fun acc p => do
    let cur := bitDiff acc.1 p.2
    let pay ← toBasicEvent p.1 .KEY_UP cur
    pure (cur, acc.2 ++ [pay])) (downAcc.1, stage2)
  if isModifierKey then pure upAcc.2
  else do
    let pay ← toBasicEvent ke .KEY_UP upAcc.1
    pure (upAcc.2 ++ [pay])

/-- `KeyEvents.to_cdp_events`. The external `emoji.is_emoji` test is an
oracle parameter. -/
def toCdpEvents (isEmoji : String → Bool) (ke : KeyEvents) (kpe : KeyPressEvent)
    (overrideModifiers : Option Nat) : Except String (List Payload) :=
  let kpe : KeyPressEvent :=
    match ke.key with
    | .str s => if isEmoji s || ke.keyCode.isNone then .CHAR else kpe
    | .special _ => kpe
  match kpe with
  | .KEY_DOWN | .RAW_KEY_DOWN | .KEY_UP =>
    .error "Not supported by itself, use CHAR or DOWN_AND_UP instead."
  | .CHAR =>
    match ke.key with
    | .str _ => do
      let p ← toBasicEvent ke .CHAR KeyModifiers.Default
      pure [p]
    | .special sk =>
      if (SPECIAL_KEY_CHAR_MAP sk).isNone then
        .error "Key is not supported for CHAR event type. Only str characters are allowed"
      else do
        let p ← toBasicEvent ke .CHAR KeyModifiers.Default
        pure [p]
  | .DOWN_AND_UP => do
    let cur := overrideModifiers.getD ke.modifiers
    let kn ← normaliseKey ke.key cur
    toDownUpSequence { ke with key := kn.1 } kn.2

/-- `KeyEvents.from_text`. The external grapheme segmentation is embedded
by passing the grapheme list directly; `emoji.is_emoji` is an oracle
parameter. -/
def fromText (isEmoji : String → Bool) (graphemes : List String)
    (asciiKeypress : KeyPressEvent) : Except String (List Payload) :=
  graphemes.foldlM (fun acc g => do
    if g = "" then pure acc
    else do
      let k : Key :=
        if g = "\n" ∨ g = "\r" then .special .ENTER
        else if g = "\t" then .special .TAB
        else if g = " " then .special .SPACE
        else .str g
      let ke ← KeyEvents.make k KeyModifiers.Default
      let ps ← toCdpEvents isEmoji ke (if isEmoji g then .CHAR else asciiKeypress) none
      pure (acc ++ ps)) []

/-- One element of the `from_mixed_input` input sequence. Plain strings
are carried as their grapheme segmentation. -/
inductive InputItem
  | text (graphemes : List String)
  | special (k : SpecialKeys)
  | combo (key : Key) (modifiers : Nat)

/-- `KeyEvents.from_mixed_input`. -/
def fromMixedInput (isEmoji : String → Bool) (items : List InputItem)
    (asciiKeypress : KeyPressEvent) : Except String (List Payload) :=
  items.foldlM (fun acc item => do
    match item with
    | .text gs => do
      let ps ← fromText isEmoji gs asciiKeypress
      pure (acc ++ ps)
    | .special k => do
      let ke ← KeyEvents.make (.special k) KeyModifiers.Default
      let ps ← toCdpEvents isEmoji ke .DOWN_AND_UP none
      pure (acc ++ ps)
    | .combo k m => do
      let ke ← KeyEvents.make k m
      let ps ← toCdpEvents isEmoji ke .DOWN_AND_UP none
      pure (acc ++ ps)) []

/-- Construct a `KeyEvents` and compile it in `DOWN_AND_UP` mode (the
emoji oracle is constantly false: every key reaching this helper in the
claims is plain ASCII). -/
def compileDownUp (key : Key) (modifiers : Nat) : Except String (List Payload) := do
  let ke ← KeyEvents.make key modifiers
  toCdpEvents (fun _ => false) ke .DOWN_AND_UP none

/-! ## Specification-side descriptions of the DOWN_AND_UP expansion -/

/-- The 95 printable ASCII characters. -/
def asciiPrintable : List Char := (List.range 95).map (fun i => Char.ofNat (32 + i))

/-- Characters the compiler rewrites to an unshifted key plus the Shift
modifier: uppercase letters, the shifted digit row and shifted
punctuation. -/
def impliesShift (c : Char) : Bool :=
  charUpper c || pyInStr (String.singleton c) NUM_SHIFT
    || (SPECIAL_CHAR_SHIFT_MAP (String.singleton c)).isSome

/-- The modifier mask after `_normalise_key`: the given mask, plus Shift
when the character implies Shift. -/
def normMask (c : Char) (modifiers : Nat) : Nat :=
  if impliesShift c then bitOr modifiers KeyModifiers.Shift else modifiers

/-- The active modifier flags of a mask in the fixed order
Alt, Ctrl, Meta, Shift. -/
def activeFlags (modifiers : Nat) : List Nat :=
  [KeyModifiers.Alt, KeyModifiers.Ctrl, KeyModifiers.Meta, KeyModifiers.Shift].filter
    (fun f => bitAnd modifiers f != 0)

/-- Running masks while modifier keys are pressed one after another. -/
def accumMasks (cur : Nat) : List Nat → List Nat
  | [] => []
  | f :: t => bitOr cur f :: accumMasks (bitOr cur f) t

/-- Running masks while modifier keys are released one after another. -/
def removeMasks (cur : Nat) : List Nat → List Nat
  | [] => []
  | f :: t => bitDiff cur f :: removeMasks (bitDiff cur f) t

/-- The `code` field of the dedicated key event for one modifier flag. -/
def modifierCode (flag : Nat) : Option String :=
  if flag = KeyModifiers.Alt then some "AltLeft"
  else if flag = KeyModifiers.Ctrl then some "ControlLeft"
  else if flag = KeyModifiers.Meta then some "MetaLeft"
  else if flag = KeyModifiers.Shift then some "ShiftLeft"
  else none

/-- Number of active bits among Alt/Ctrl/Meta/Shift. -/
def maskBitCount (modifiers : Nat) : Nat := (activeFlags modifiers).length

/-- The `(type, modifiers, code)` projection the specification predicts
for a DOWN_AND_UP expansion of a non-modifier main key under mask `M`:
modifier keyDowns in fixed order with accumulating masks, the main
keyDown with the full mask, modifier keyUps in the same order with the
bits removed, and the main keyUp with mask zero. -/
def expectedDownUp (M : Nat) (mainCode : Option String) : List (String × Nat × Option String) :=
  (List.zip (activeFlags M) (accumMasks 0 (activeFlags M))).map
      (fun p => ("keyDown", p.2, modifierCode p.1))
    ++ [("keyDown", M, mainCode)]
    ++ (List.zip (activeFlags M) (removeMasks M (activeFlags M))).map
      (fun p => ("keyUp", p.2, modifierCode p.1))
    ++ [("keyUp", 0, mainCode)]

/-- The `code` computed by `__init__` for a single printable character
(this is the `code` every main-key payload carries). -/
def mainCodeOf (c : Char) : Option String :=
  match handleStringKeyLookup (String.singleton c) with
  | .ok cn => cn.1
  | .error _ => none

/-- One test case of the (amended) claim C2: compiling character `c` with
mask `M` in DOWN_AND_UP mode either succeeds with exactly the
`expectedDownUp` shape for the normalised mask — hence
`2·popcount + 2` payloads — or fails, which happens exactly for
Shift-implying characters combined with a mask other than `0` or
`Shift`. -/
def downUpCaseCheck (c : Char) (M : Nat) : Bool :=
  match compileDownUp (.str (String.singleton c)) M with
  | .ok ps =>
    (ps.map (fun p => (p.type_, p.modifiers, p.code)) == expectedDownUp (normMask c M) (mainCodeOf c))
      && (ps.length == 2 * maskBitCount (normMask c M) + 2)
      && (!(impliesShift c) || (M == 0 || M == 8))
  | .error _ => impliesShift c && M != 0 && M != 8

/-- The characters claim C9 ranges over: lowercase letters, digits and the
mappable (unshifted) punctuation of `SPECIAL_CHAR_MAP`. -/
def mainShiftChars : List Char := "abcdefghijklmnopqrstuvwxyz0123456789;=,-./`[\\]'".data

/-- The shifted counterpart of an unshifted character: the uppercase
letter, the `NUM_SHIFT` row entry for a digit, or the reverse
punctuation map entry. -/
def shiftedOf (c : Char) : Option String :=
  if charLower c then some (String.singleton (charToUpper c))
  else if charDigit c then (NUM_SHIFT.data.get? (c.toNat - 48)).map String.singleton
  else SPECIAL_CHAR_REVERSE_MAP (String.singleton c)

/-- One test case of claim C9: expanding `(c, Shift)` yields exactly
Shift-down, main-down, Shift-up, main-up, where the main keyDown carries
the shifted character as `key` and `text` under mask `Shift`, the main
keyUp carries the unshifted character under mask `0`, and both main
payloads agree on `code` and the virtual key codes. -/
def shiftCaseCheck (c : Char) : Bool :=
  match compileDownUp (.str (String.singleton c)) KeyModifiers.Shift with
  | .ok [d1, dm, u1, um] =>
    d1.type_ == "keyDown" && d1.code == some "ShiftLeft" && d1.modifiers == 8
      && u1.type_ == "keyUp" && u1.code == some "ShiftLeft" && u1.modifiers == 0
      && dm.type_ == "keyDown" && dm.modifiers == 8
      && dm.key == shiftedOf c && dm.text == shiftedOf c
      && um.type_ == "keyUp" && um.modifiers == 0
      && um.key == some (String.singleton c) && um.text == some (String.singleton c)
      && dm.code == um.code
      && dm.windows_virtual_key_code == um.windows_virtual_key_code
      && dm.native_virtual_key_code == um.native_virtual_key_code
  | _ => false

/-- True when the string has a character outside the ASCII range (every
emoji grapheme does). -/
def hasNonAscii (s : String) : Bool := s.data.any (fun c => !charAscii c)

/-- The single `char` payload the compiler emits for a grapheme. -/
def charPayload (t : String) : Payload :=
  { type_ := "char", modifiers := 0, text := some t, key := none, code := none,
    windows_virtual_key_code := none, native_virtual_key_code := none }

/-! ## Connection model (`zendriver/core/connection.py` is not part of the
sources; its operations used by `expect.py` / `intercept.py` are modelled
from the spec) -/

/-- CDP domains relevant to the claims. -/
inductive Domain
  | fetch
  | network
  | browser
deriving DecidableEq

/-- Event-handler registrations relevant to the claims. -/
inductive HandlerTag
  | fetchPaused
  | downloadWillBegin
deriving DecidableEq

/-- Commands the modelled scopes send over the connection. -/
inductive Cmd
  | fetchEnable (urlPattern : String) (requestStage : String) (resourceType : String)
  | fetchDisable
  | setDownloadBehavior (behavior : String) (downloadPath : Option String)
      (eventsEnabled : Option Bool)
deriving DecidableEq

/-- Observable operations a scope performs on its Connection. -/
inductive Action
  | send (c : Cmd)
  | addHandler (h : HandlerTag)
  | removeHandlers (h : HandlerTag)
deriving DecidableEq

/-- Modelled from the spec: the per-session Connection state owned by a
Tab — the handler registry, the `enabled_domains` collection and the
download-behavior tuple (the `Connection` class itself is outside the
given sources). The `log` records every public operation a scope invokes,
in order. -/
structure Connection where
  log : List Action
  handlers : List HandlerTag
  enabledDomains : List Domain
  downloadBehavior : Option (String × Option String)
deriving DecidableEq

/-- A freshly attached Connection. -/
def Connection.init : Connection := ⟨[], [], [], none⟩

/-- Modelled from the spec: `Connection.send` transmits a command. -/
def Connection.sendCmd (c : Connection) (cmd : Cmd) : Connection :=
  { c with log := c.log ++ [.send cmd] }

/-- Modelled from the spec: `Connection.add_handler` appends to the
ordered handler registry. -/
def Connection.addHandler (c : Connection) (h : HandlerTag) : Connection :=
  { c with log := c.log ++ [.addHandler h], handlers := c.handlers ++ [h] }

/-- Modelled from the spec: `Connection.remove_handlers(event, fn)` drops
the matching registrations. -/
def Connection.removeHandlers (c : Connection) (h : HandlerTag) : Connection :=
  { c with log := c.log ++ [.removeHandlers h],
           handlers := c.handlers.filter (fun x => x ≠ h) }

/-! ## Request expectations (`zendriver/core/expect.py`) -/

/-- The part of a `RequestWillBeSent` event the expectation inspects. -/
structure ReqEvent where
  request_id : Nat
  url : String
deriving DecidableEq

/-- State of a `BaseRequestExpectation` restricted to the request slot:
whether `_request_handler` is still registered, the captured
`request_id`, and the single-fire `request_future`. -/
structure ExpectationState where
  handlerAttached : Bool
  request_id : Option Nat
  requestFuture : Option ReqEvent
deriving DecidableEq

/-- `BaseRequestExpectation.__init__` followed by `__aenter__`: futures
pending, `request_id` unset, handler registered. -/
def enteredExpectation : ExpectationState :=
  { handlerAttached := true, request_id := none, requestFuture := none }

/-- Delivery of one `RequestWillBeSent` event: the Connection invokes
`_request_handler` only while it is registered; the handler completes the
slot, stores the request id and removes itself exactly when the URL
fullmatches the pattern (`matches` stands for
`re.fullmatch(url_pattern, ·)`). -/
def dispatchRequestWillBeSent (urlMatch : String → Bool) (st : ExpectationState)
    (e : ReqEvent) : ExpectationState :=
  if st.handlerAttached then
    if urlMatch e.url then
      { handlerAttached := false, request_id := some e.request_id, requestFuture := some e }
    else st
  else st

/-- Deliver a list of `RequestWillBeSent` events in order. -/
def processEvents (urlMatch : String → Bool) (st : ExpectationState)
    (es : List ReqEvent) : ExpectationState :=
  es.foldl (dispatchRequestWillBeSent urlMatch) st

/-- `RequestExpectation.value`: awaiting the request future returns its
settled value (every await returns the same settled event). -/
def awaitValue (st : ExpectationState) : Option ReqEvent := st.requestFuture

/-! ## Fetch interception (`zendriver/core/intercept.py`) -/

/-- `BaseFetchInterception` state: the Connection plus the construction
parameters and the single paused-event slot. -/
structure FetchInterception where
  tab : Connection
  url_pattern : String
  request_stage : String
  resource_type : String
  responseSlot : Option Nat
deriving DecidableEq

/-- `BaseFetchInterception.__init__`. -/
def FetchInterception.make (tab : Connection) (up rs rt : String) : FetchInterception :=
  { tab := tab, url_pattern := up, request_stage := rs, resource_type := rt,
    responseSlot := none }

/-- `BaseFetchInterception._setup` (the body of `__aenter__`): send
`Fetch.enable` with the single constructed pattern, append the `Fetch`
domain marker to `enabled_domains`, then register the paused handler. -/
def FetchInterception.setup (f : FetchInterception) : FetchInterception :=
  let t1 := f.tab.sendCmd (.fetchEnable f.url_pattern f.request_stage f.resource_type)
  let t2 := { t1 with enabledDomains := t1.enabledDomains ++ [Domain.fetch] }
  { f with tab := t2.addHandler .fetchPaused }

/-- `BaseFetchInterception._teardown` (the body of `__aexit__`): remove
the paused handler, then send `Fetch.disable`. -/
def FetchInterception.teardown (f : FetchInterception) : FetchInterception :=
  let t1 := f.tab.removeHandlers .fetchPaused
  { f with tab := t1.sendCmd .fetchDisable }

/-- `BaseFetchInterception.reset`: fresh future, teardown, setup. -/
def FetchInterception.reset (f : FetchInterception) : FetchInterception :=
  FetchInterception.setup (FetchInterception.teardown { f with responseSlot := none })

/-- Occurrences of `Fetch.disable` in an action log. -/
def countFetchDisable : List Action → Nat
  | [] => 0
  | .send .fetchDisable :: t => countFetchDisable t + 1
  | _ :: t => countFetchDisable t

/-- Occurrences of the `Fetch` domain marker in `enabled_domains`. -/
def countFetchDomain : List Domain → Nat
  | [] => 0
  | .fetch :: t => countFetchDomain t + 1
  | _ :: t => countFetchDomain t

/-! ## Download expectation (`zendriver/core/expect.py`) -/

/-- `DownloadExpectation` state: the Connection plus the
`(default_behavior, download_path)` captured at construction. -/
structure DownloadExpectation where
  tab : Connection
  default_behavior : String
  download_path : Option String
deriving DecidableEq

/-- `DownloadExpectation.__init__`: capture the Connection's current
download-behavior tuple, with defaults `("default", None)`. -/
def DownloadExpectation.make (tab : Connection) : DownloadExpectation :=
  { tab := tab,
    default_behavior :=
      match tab.downloadBehavior with
      | some bp => bp.1
      | none => "default",
    download_path :=
      match tab.downloadBehavior with
      | some bp => bp.2
      | none => none }

/-- `DownloadExpectation.__aenter__`: send
`Browser.setDownloadBehavior(behavior="deny", eventsEnabled=True)`, then
register the download handler. -/
def DownloadExpectation.enter (d : DownloadExpectation) : DownloadExpectation :=
  let t1 := d.tab.sendCmd (.setDownloadBehavior "deny" none (some true))
  { d with tab := t1.addHandler .downloadWillBegin }

/-- `DownloadExpectation.__aexit__`: send `Browser.setDownloadBehavior`
with the captured `(behavior, path)` pair, then remove the handler. -/
def DownloadExpectation.exit (d : DownloadExpectation) : DownloadExpectation :=
  let t1 := d.tab.sendCmd (.setDownloadBehavior d.default_behavior d.download_path none)
  { d with tab := t1.removeHandlers .downloadWillBegin }

/-! ## Concrete inputs used by the claims -/

/-- The scenario-S4 input list
`["Hi", SpecialKeys.ENTER, ("a", KeyModifiers.Ctrl), "👍"]`, with the
strings carried as their grapheme segmentations. -/
def s4input : List InputItem :=
  [.text ["H", "i"], .special .ENTER, .combo (.str "a") KeyModifiers.Ctrl, .text ["👍"]]

/-- The emoji oracle for the S4 scenario: exactly the thumbs-up grapheme
is an emoji. -/
def s4oracle : String → Bool := fun s => s == "👍"

deriving instance DecidableEq for Except

/-- Helper to write payload literals compactly. -/
def mkPayload (ty : String) (m : Nat) (txt k c : Option String) (vk : Option Nat) : Payload :=
  { type_ := ty, modifiers := m, text := txt, key := k, code := c,
    windows_virtual_key_code := vk, native_virtual_key_code := vk }

set_option maxRecDepth 100000

set_option maxHeartbeats 12000000

/-! ## Claims about the key-event compiler -/

/-- Claim C2, counterexample: compiling the ASCII printable character
`"A"` with the empty modifier mask does not produce
`2·popcount(0) + 2 = 2` payloads (it produces 4, because normalisation
adds the Shift modifier). -/
theorem downUp_count_cex :
    Except.map List.length (compileDownUp (Key.str "A") 0) ≠
      Except.ok (2 * maskBitCount 0 + 2) := by
  decide

lemma downUpCaseCheck_block1 :
    ∀ c ∈ (List.range 12).map (fun i => Char.ofNat (32 + i)), ∀ M ∈ List.range 16,
      downUpCaseCheck c M = true := by
  decide

lemma downUpCaseCheck_block2 :
    ∀ c ∈ (List.range 12).map (fun i => Char.ofNat (44 + i)), ∀ M ∈ List.range 16,
      downUpCaseCheck c M = true := by
  decide

lemma downUpCaseCheck_block3 :
    ∀ c ∈ (List.range 12).map (fun i => Char.ofNat (56 + i)), ∀ M ∈ List.range 16,
      downUpCaseCheck c M = true := by
  decide

lemma downUpCaseCheck_block4 :
    ∀ c ∈ (List.range 12).map (fun i => Char.ofNat (68 + i)), ∀ M ∈ List.range 16,
      downUpCaseCheck c M = true := by
  decide

lemma downUpCaseCheck_block5 :
    ∀ c ∈ (List.range 12).map (fun i => Char.ofNat (80 + i)), ∀ M ∈ List.range 16,
      downUpCaseCheck c M = true := by
  decide

lemma downUpCaseCheck_block6 :
    ∀ c ∈ (List.range 12).map (fun i => Char.ofNat (92 + i)), ∀ M ∈ List.range 16,
      downUpCaseCheck c M = true := by
  decide

lemma downUpCaseCheck_block7 :
    ∀ c ∈ (List.range 12).map (fun i => Char.ofNat (104 + i)), ∀ M ∈ List.range 16,
      downUpCaseCheck c M = true := by
  decide

lemma downUpCaseCheck_block8 :
    ∀ c ∈ (List.range 11).map (fun i => Char.ofNat (116 + i)), ∀ M ∈ List.range 16,
      downUpCaseCheck c M = true := by
  decide

lemma asciiPrintable_split :
    asciiPrintable =
      (List.range 12).map (fun i => Char.ofNat (32 + i)) ++
      ((List.range 12).map (fun i => Char.ofNat (44 + i)) ++
      ((List.range 12).map (fun i => Char.ofNat (56 + i)) ++
      ((List.range 12).map (fun i => Char.ofNat (68 + i)) ++
      ((List.range 12).map (fun i => Char.ofNat (80 + i)) ++
      ((List.range 12).map (fun i => Char.ofNat (92 + i)) ++
      ((List.range 12).map (fun i => Char.ofNat (104 + i)) ++
       (List.range 11).map (fun i => Char.ofNat (116 + i)))))))) := by
  decide

/-- Claim C2, amended: for every ASCII printable character `c` and every
modifier mask `M < 16` for which compilation succeeds, DOWN_AND_UP
compilation produces exactly `2·popcount(M′) + 2` payloads, where `M′` is
`M` with Shift added when `c` is a shifted character; the payloads are
keyDowns for the active modifiers of `M′` in the fixed order Alt, Ctrl,
Meta, Shift with accumulating masks, the main keyDown with the full mask,
modifier keyUps in the same order with the bits removed, and the main
keyUp with mask zero. Compilation fails exactly for shifted characters
with a mask other than `0` or `Shift`. -/
theorem downUp_shape : ∀ c ∈ asciiPrintable, ∀ M ∈ List.range 16,
    downUpCaseCheck c M = true := by
  intro c hc
  rw [asciiPrintable_split] at hc
  rcases List.mem_append.mp hc with h | h
  · exact downUpCaseCheck_block1 c h
  rcases List.mem_append.mp h with h | h
  · exact downUpCaseCheck_block2 c h
  rcases List.mem_append.mp h with h | h
  · exact downUpCaseCheck_block3 c h
  rcases List.mem_append.mp h with h | h
  · exact downUpCaseCheck_block4 c h
  rcases List.mem_append.mp h with h | h
  · exact downUpCaseCheck_block5 c h
  rcases List.mem_append.mp h with h | h
  · exact downUpCaseCheck_block6 c h
  rcases List.mem_append.mp h with h | h
  · exact downUpCaseCheck_block7 c h
  · exact downUpCaseCheck_block8 c h

/-- Witness for `downUp_shape` at `c = 'a'`, `M = Alt|Ctrl`. -/
theorem downUp_shape_witness :
    'a' ∈ asciiPrintable ∧ 3 ∈ List.range 16 ∧ downUpCaseCheck 'a' 3 = true :=
  ⟨by decide, by decide, downUp_shape 'a' (by decide) 3 (by decide)⟩

/-- Claim C3, counterexample: the S4 mixed input does not compile to 11
payloads (the claimed list). -/
theorem mixed_input_s4_cex :
    Except.map List.length (fromMixedInput s4oracle s4input KeyPressEvent.DOWN_AND_UP) ≠
      Except.ok 11 := by
  decide

/-- Claim C3, amended: the S4 mixed input compiles to exactly these 13
payloads — the `H` item expands to Shift-down, H-down, Shift-up, h-up
(the spec's list omitted the two dedicated Shift payloads and the
lowercase text of the main keyUp); the rest is as the claim lists it. -/
theorem mixed_input_s4 :
    fromMixedInput s4oracle s4input KeyPressEvent.DOWN_AND_UP = .ok
      [mkPayload "keyDown" 8 none (some "Shift") (some "ShiftLeft") (some 16),
       mkPayload "keyDown" 8 (some "H") (some "H") (some "KeyH") (some 72),
       mkPayload "keyUp" 0 none (some "Shift") (some "ShiftLeft") (some 16),
       mkPayload "keyUp" 0 (some "h") (some "h") (some "KeyH") (some 72),
       mkPayload "keyDown" 0 (some "i") (some "i") (some "KeyI") (some 73),
       mkPayload "keyUp" 0 (some "i") (some "i") (some "KeyI") (some 73),
       mkPayload "keyDown" 0 (some "\r") (some "\r") (some "Enter") (some 13),
       mkPayload "keyUp" 0 (some "\r") (some "\r") (some "Enter") (some 13),
       mkPayload "keyDown" 2 none (some "Control") (some "ControlLeft") (some 17),
       mkPayload "keyDown" 2 (some "a") (some "a") (some "KeyA") (some 65),
       mkPayload "keyUp" 0 none (some "Control") (some "ControlLeft") (some 17),
       mkPayload "keyUp" 0 (some "a") (some "a") (some "KeyA") (some 65),
       mkPayload "char" 0 (some "👍") none none none] := by
  decide

/-- Claim C4: compiling `"A"` with no modifier yields a payload list
identical to compiling `"a"` with Shift, and that list is the successful
4-payload Shift expansion. -/
theorem shift_normalisation :
    compileDownUp (Key.str "A") KeyModifiers.Default =
        compileDownUp (Key.str "a") KeyModifiers.Shift
    ∧ compileDownUp (Key.str "A") KeyModifiers.Default = .ok
      [mkPayload "keyDown" 8 none (some "Shift") (some "ShiftLeft") (some 16),
       mkPayload "keyDown" 8 (some "A") (some "A") (some "KeyA") (some 65),
       mkPayload "keyUp" 0 none (some "Shift") (some "ShiftLeft") (some 16),
       mkPayload "keyUp" 0 (some "a") (some "a") (some "KeyA") (some 65)] := by
  exact ⟨by decide, by decide⟩

/-- Claim C6: the length-2 string `"!@"` passed as the single key of a
key event is accepted — construction succeeds (Python's substring `in`
against `NUM_SHIFT` classifies it as the shifted digit `1`) and
DOWN_AND_UP compilation succeeds with four payloads instead of raising an
argument error. -/
theorem multichar_key_accepted :
    ("!@").length = 2
    ∧ KeyEvents.make (Key.str "!@") 0 =
        .ok { key := Key.str "!@", modifiers := 0, code := some "Digit1", keyCode := some 49 }
    ∧ compileDownUp (Key.str "!@") 0 = .ok
      [mkPayload "keyDown" 8 none (some "Shift") (some "ShiftLeft") (some 16),
       mkPayload "keyDown" 8 (some "!") (some "!") (some "Digit1") (some 49),
       mkPayload "keyUp" 0 none (some "Shift") (some "ShiftLeft") (some 16),
       mkPayload "keyUp" 0 (some "1") (some "1") (some "Digit1") (some 49)] := by
  exact ⟨by decide, by decide, by decide⟩

/-- Claim C9: for every lowercase letter, digit or mappable punctuation
character compiled with mask exactly Shift, the expansion is Shift-down,
main-down, Shift-up, main-up; the main keyDown carries the shifted
character as `key` and `text` (mask 8), the main keyUp carries the
unshifted character (mask 0), and both main payloads agree on `code` and
the virtual key codes. -/
theorem shift_main_payloads : ∀ c ∈ mainShiftChars, shiftCaseCheck c = true := by
  decide

/-- Witness for `shift_main_payloads` at `c = 'a'`. -/
theorem shift_main_payloads_witness :
    'a' ∈ mainShiftChars ∧ shiftCaseCheck 'a' = true :=
  ⟨by decide, shift_main_payloads 'a' (by decide)⟩

/-! ## Claims about expectations, interception and downloads -/

lemma exceptBind_ok {α β ε : Type} (a : α) (f : α → Except ε β) :
    (Except.ok a : Except ε α) >>= f = f a := rfl

lemma exceptPure_eq_ok {α ε : Type} (a : α) : (pure a : Except ε α) = Except.ok a := rfl

lemma hasNonAscii_ne {e : String} (h : hasNonAscii e = true) (s : String)
    (hs : hasNonAscii s = false) : e ≠ s := by
  intro heq
  subst heq
  rw [h] at hs
  exact Bool.noConfusion hs

lemma pyIsAscii_eq_false {e : String} (h : hasNonAscii e = true) : pyIsAscii e = false := by
  obtain ⟨c, hc, hc2⟩ := List.any_eq_true.mp h
  cases hall : e.data.all charAscii with
  | false => simp [pyIsAscii, hall]
  | true =>
    have := List.all_eq_true.mp hall c hc
    simp [this] at hc2

lemma pyIsDigit_eq_false {e : String} (h : hasNonAscii e = true) : pyIsDigit e = false := by
  obtain ⟨c, hc, hc2⟩ := List.any_eq_true.mp h
  have hca : charAscii c = false := by simpa using hc2
  have hcd : charDigit c = false := by
    simp [charAscii] at hca
    simp [charDigit]
    omega
  cases hall : e.data.all charDigit with
  | false => simp [pyIsDigit, hall]
  | true =>
    have := List.all_eq_true.mp hall c hc
    rw [this] at hcd
    exact absurd hcd (by simp)

lemma pySubstrFind_eq_none {needle hay : List Char} (c : Char) (hc : c ∈ needle)
    (hhay : hay.all charAscii = true) (hcn : charAscii c = false) :
    pySubstrFind needle hay = none := by
  induction hay with
  | nil =>
    cases needle with
    | nil => cases hc
    | cons a t => simp [pySubstrFind, List.isPrefixOf]
  | cons a t ih =>
    have hpre : needle.isPrefixOf (a :: t) = false := by
      cases hp : needle.isPrefixOf (a :: t) with
      | false => rfl
      | true =>
        exfalso
        have hsub : needle <+: a :: t := by rwa [List.isPrefixOf_iff_prefix] at hp
        have hmem : c ∈ a :: t := hsub.sublist.subset hc
        have := List.all_eq_true.mp hhay c hmem
        rw [this] at hcn
        exact Bool.noConfusion hcn
    have hall_t : t.all charAscii = true := by
      simp only [List.all_cons, Bool.and_eq_true] at hhay
      exact hhay.2
    rw [pySubstrFind, hpre]
    simp [ih hall_t]

lemma pyInStr_eq_false {e : String} (hay : String) (h : hasNonAscii e = true)
    (hhay : hay.data.all charAscii = true) : pyInStr e hay = false := by
  obtain ⟨c, hc, hc2⟩ := List.any_eq_true.mp h
  have hca : charAscii c = false := by simpa using hc2
  unfold pyInStr
  rw [pySubstrFind_eq_none c hc hhay hca]
  rfl

lemma SPECIAL_CHAR_MAP_nonascii {e : String} (h : hasNonAscii e = true) :
    SPECIAL_CHAR_MAP e = none := by
  have ne : ∀ s : String, hasNonAscii s = false → ¬ (e = s) := fun s hs => hasNonAscii_ne h s hs
  simp [SPECIAL_CHAR_MAP, ne ";" (by decide), ne "=" (by decide), ne "," (by decide),
    ne "-" (by decide), ne "." (by decide), ne "/" (by decide), ne "`" (by decide),
    ne "[" (by decide), ne "\\" (by decide), ne "]" (by decide), ne "'" (by decide)]

lemma SPECIAL_CHAR_SHIFT_MAP_nonascii {e : String} (h : hasNonAscii e = true) :
    SPECIAL_CHAR_SHIFT_MAP e = none := by
  have ne : ∀ s : String, hasNonAscii s = false → ¬ (e = s) := fun s hs => hasNonAscii_ne h s hs
  simp [SPECIAL_CHAR_SHIFT_MAP, ne ":" (by decide), ne "+" (by decide), ne "<" (by decide),
    ne "_" (by decide), ne ">" (by decide), ne "?" (by decide), ne "~" (by decide),
    ne "\x7b" (by decide), ne "|" (by decide), ne "\x7d" (by decide), ne "\"" (by decide)]

lemma handleStringKeyLookup_nonascii {e : String} (h : hasNonAscii e = true) :
    handleStringKeyLookup e = .ok (none, none) := by
  have hascii := pyIsAscii_eq_false h
  have hdigit := pyIsDigit_eq_false h
  have hnum := pyInStr_eq_false NUM_SHIFT h (by decide)
  have hnl := pyInStr_eq_false "\n\r" h (by decide)
  have ne : ∀ s : String, hasNonAscii s = false → ¬ (e = s) := fun s hs => hasNonAscii_ne h s hs
  simp [handleStringKeyLookup, isEnglishAlphabet, hascii, hdigit, hnum, hnl,
    ne "\t" (by decide), ne " " (by decide), exceptBind_ok, exceptPure_eq_ok,
    SPECIAL_CHAR_MAP_nonascii h, SPECIAL_CHAR_SHIFT_MAP_nonascii h]

/-- Claim C5: for a single emoji grapheme `e` (any grapheme the emoji
oracle accepts that contains a non-ASCII character), `from_text`
produces exactly one payload: a `char` event whose `text` is `e` and
whose `key`, `code` and virtual key code fields are all absent. -/
theorem from_text_emoji_single (isEmoji : String → Bool) (e : String)
    (kp : KeyPressEvent) (h1 : isEmoji e = true) (h2 : hasNonAscii e = true) :
    fromText isEmoji [e] kp = .ok [charPayload e] := by
  have ne : ∀ s : String, hasNonAscii s = false → ¬ (e = s) := fun s hs => hasNonAscii_ne h2 s hs
  simp [fromText, ne "" (by decide), ne "\n" (by decide), ne "\r" (by decide),
    ne "\t" (by decide), ne " " (by decide), KeyEvents.make, exceptBind_ok, exceptPure_eq_ok,
    handleStringKeyLookup_nonascii h2, h1, toCdpEvents, toBasicEvent, getKeyAndText,
    charPayload, KeyPressEvent.value, KeyModifiers.Default]

/-- Witness for `from_text_emoji_single` at the thumbs-up grapheme. -/
theorem from_text_emoji_single_witness :
    ((fun s => s == "👍") "👍" = true)
    ∧ hasNonAscii "👍" = true
    ∧ fromText (fun s => s == "👍") ["👍"] KeyPressEvent.DOWN_AND_UP =
        .ok [charPayload "👍"] :=
  ⟨rfl, by decide,
    from_text_emoji_single (fun s => s == "👍") "👍" KeyPressEvent.DOWN_AND_UP
      rfl (by decide)⟩


lemma processEvents_detached (urlMatch : String → Bool) (st : ExpectationState)
    (es : List ReqEvent) (h : st.handlerAttached = false) :
    processEvents urlMatch st es = st := by
  induction es with
  | nil => rfl
  | cons a t ih =>
    have hstep : dispatchRequestWillBeSent urlMatch st a = st := by
      simp [dispatchRequestWillBeSent, h]
    simp only [processEvents, List.foldl_cons, hstep]
    exact ih

lemma processEvents_no_match (urlMatch : String → Bool) (es : List ReqEvent)
    (h : ∀ x ∈ es, urlMatch x.url = false) :
    processEvents urlMatch enteredExpectation es = enteredExpectation := by
  induction es with
  | nil => rfl
  | cons a t ih =>
    have hstep : dispatchRequestWillBeSent urlMatch enteredExpectation a = enteredExpectation := by
      simp [dispatchRequestWillBeSent, enteredExpectation, h a (List.mem_cons_self a t)]
    simp only [processEvents, List.foldl_cons, hstep]
    exact ih (fun x hx => h x (List.mem_cons_of_mem a hx))

/-- Claim C1: in an entered request-expectation scope, the first
`RequestWillBeSent` event whose URL fullmatches the pattern completes the
request slot, stores its `request_id` and detaches the request handler;
any later events — matching or not — leave the state unchanged, and
awaiting `value` returns that first event. -/
theorem request_expectation_first_match (urlMatch : String → Bool)
    (es1 : List ReqEvent) (e : ReqEvent) (es2 : List ReqEvent)
    (h1 : ∀ x ∈ es1, urlMatch x.url = false) (h2 : urlMatch e.url = true) :
    processEvents urlMatch enteredExpectation (es1 ++ e :: es2) =
      { handlerAttached := false, request_id := some e.request_id, requestFuture := some e }
    ∧ awaitValue (processEvents urlMatch enteredExpectation (es1 ++ e :: es2)) = some e := by
  have hfire : dispatchRequestWillBeSent urlMatch enteredExpectation e =
      { handlerAttached := false, request_id := some e.request_id, requestFuture := some e } := by
    simp [dispatchRequestWillBeSent, enteredExpectation, h2]
  have hmain : processEvents urlMatch enteredExpectation (es1 ++ e :: es2) =
      { handlerAttached := false, request_id := some e.request_id, requestFuture := some e } := by
    show List.foldl _ _ _ = _
    rw [List.foldl_append]
    have hskip := processEvents_no_match urlMatch es1 h1
    simp only [processEvents] at hskip
    rw [hskip]
    simp only [List.foldl_cons]
    show processEvents urlMatch (dispatchRequestWillBeSent urlMatch enteredExpectation e) es2 = _
    rw [hfire]
    exact processEvents_detached urlMatch _ es2 rfl
  exact ⟨hmain, by rw [awaitValue, hmain]⟩

/-- Witness for `request_expectation_first_match`: the scenario-S1 event
sequence, in which a second request with the same URL arrives after the
first match. -/
theorem request_expectation_first_match_witness :
    ((fun u => u == "http://h/g.html") "http://h/g.html" = true)
    ∧ (processEvents (fun u => u == "http://h/g.html") enteredExpectation
        ([] ++ ⟨1, "http://h/g.html"⟩ :: [⟨2, "http://h/g.html"⟩]) =
        { handlerAttached := false, request_id := some 1,
          requestFuture := some ⟨1, "http://h/g.html"⟩ }
      ∧ awaitValue (processEvents (fun u => u == "http://h/g.html") enteredExpectation
          ([] ++ ⟨1, "http://h/g.html"⟩ :: [⟨2, "http://h/g.html"⟩])) =
          some ⟨1, "http://h/g.html"⟩) :=
  ⟨rfl, request_expectation_first_match (fun u => u == "http://h/g.html")
    [] ⟨1, "http://h/g.html"⟩ [⟨2, "http://h/g.html"⟩] (by simp) rfl⟩

/-- Claim C7: one enter–exit scope of a fetch interception performs, in
order: `Fetch.enable` with the single constructed pattern, registration
of the paused handler, removal of the handler, `Fetch.disable` — so the
enable precedes the handler registration, the handler is detached on
exit, and `Fetch.disable` is issued exactly once. -/
theorem fetch_scope_enable_disable (up rs rt : String) :
    ((FetchInterception.make Connection.init up rs rt).setup.teardown).tab.log =
      [Action.send (Cmd.fetchEnable up rs rt), Action.addHandler HandlerTag.fetchPaused,
       Action.removeHandlers HandlerTag.fetchPaused, Action.send Cmd.fetchDisable]
    ∧ ((FetchInterception.make Connection.init up rs rt).setup.teardown).tab.handlers = []
    ∧ countFetchDisable
        ((FetchInterception.make Connection.init up rs rt).setup.teardown).tab.log = 1 :=
  ⟨rfl, rfl, rfl⟩

lemma teardown_enabledDomains (f : FetchInterception) :
    f.teardown.tab.enabledDomains = f.tab.enabledDomains := rfl

lemma setup_enabledDomains (f : FetchInterception) :
    f.setup.tab.enabledDomains = f.tab.enabledDomains ++ [Domain.fetch] := rfl

lemma countFetchDomain_append (l1 l2 : List Domain) :
    countFetchDomain (l1 ++ l2) = countFetchDomain l1 + countFetchDomain l2 := by
  induction l1 with
  | nil => simp [countFetchDomain]
  | cons a t ih =>
    cases a with
    | fetch => simp [countFetchDomain, ih]; omega
    | network => simp [countFetchDomain, ih]
    | browser => simp [countFetchDomain, ih]

lemma reset_countFetchDomain (f : FetchInterception) :
    countFetchDomain f.reset.tab.enabledDomains =
      countFetchDomain f.tab.enabledDomains + 1 := by
  show countFetchDomain (FetchInterception.setup _).tab.enabledDomains = _
  rw [setup_enabledDomains, countFetchDomain_append]
  rfl

lemma teardown_log (f : FetchInterception) :
    f.teardown.tab.log = f.tab.log ++
      [Action.removeHandlers HandlerTag.fetchPaused, Action.send Cmd.fetchDisable] := by
  simp [FetchInterception.teardown, Connection.removeHandlers, Connection.sendCmd]

/-- Claim C10: entering a fetch interception scope appends the `Fetch`
domain marker to `enabled_domains`, every `reset` appends it again, and
neither teardown nor reset ever removes it: after entry, `n` resets and
exit the collection holds `n + 1` copies of the marker even though
`Fetch.disable` was sent. -/
theorem fetch_domain_marker_accumulates (up rs rt : String) (n : Nat) :
    countFetchDomain
      ((FetchInterception.reset^[n]
        ((FetchInterception.make Connection.init up rs rt).setup)).teardown).tab.enabledDomains
      = n + 1
    ∧ Action.send Cmd.fetchDisable ∈
      ((FetchInterception.reset^[n]
        ((FetchInterception.make Connection.init up rs rt).setup)).teardown).tab.log := by
  constructor
  · rw [teardown_enabledDomains]
    induction n with
    | zero => rfl
    | succ m ih =>
      rw [Function.iterate_succ_apply', reset_countFetchDomain, ih]
  · rw [teardown_log]
    simp

/-- Claim C8: a download expectation's scope sends
`Browser.setDownloadBehavior(behavior="deny")` on entry and on exit sends
`Browser.setDownloadBehavior` with the `(behavior, path)` pair captured
from the Connection before the scope (defaulting to
`("default", None)` when none was recorded), restoring the prior
behavior; the handler registered on entry is removed on exit. -/
theorem download_expectation_deny_restore (dlb : Option (String × Option String)) :
    (((DownloadExpectation.make { Connection.init with downloadBehavior := dlb }).enter).exit).tab.log =
      [Action.send (Cmd.setDownloadBehavior "deny" none (some true)),
       Action.addHandler HandlerTag.downloadWillBegin,
       Action.send (Cmd.setDownloadBehavior
         (match dlb with
          | some bp => bp.1
          | none => "default")
         (match dlb with
          | some bp => bp.2
          | none => none) none),
       Action.removeHandlers HandlerTag.downloadWillBegin]
    ∧ (((DownloadExpectation.make { Connection.init with downloadBehavior := dlb }).enter).exit).tab.handlers = [] := by
  cases dlb <;> exact ⟨rfl, rfl⟩


end Zendriver
